import Mathlib

/-!
Verification development for a trio of Flask microservices
(KYC onboarding `app.py`, PAN linking `pan_app.py`, Aadhaar linking
`aadhaar_app.py`).  Each service is embedded shallowly: the database
table backing a service becomes a list of records, each HTTP handler
becomes a pure function from the store (plus the request parameters,
including the freshly generated identifier and the current clock value
that the ORM would supply) to a response and an updated store.
-/

namespace Banking

/-! ## SHA-256 (faithful embedding of `hashlib.sha256(...).hexdigest()`)

Words are `Nat`s reduced modulo `2^32`; messages are lists of byte
values.  For the ASCII inputs the Aadhaar service accepts, Python's
`str.encode()` yields exactly the code points of the string. -/

def w32 (x : Nat) : Nat := x % 4294967296

def rotr (n x : Nat) : Nat := w32 ((x >>> n) ||| (x <<< (32 - n)))

def bigSigma0 (x : Nat) : Nat := rotr 2 x ^^^ rotr 13 x ^^^ rotr 22 x

def bigSigma1 (x : Nat) : Nat := rotr 6 x ^^^ rotr 11 x ^^^ rotr 25 x

def smallSigma0 (x : Nat) : Nat := rotr 7 x ^^^ rotr 18 x ^^^ (x >>> 3)

def smallSigma1 (x : Nat) : Nat := rotr 17 x ^^^ rotr 19 x ^^^ (x >>> 10)

def chWord (x y z : Nat) : Nat := (x &&& y) ^^^ ((x ^^^ 4294967295) &&& z)

def majWord (x y z : Nat) : Nat := (x &&& y) ^^^ (x &&& z) ^^^ (y &&& z)

def sha256K : List Nat :=
  [1116352408, 1899447441, 3049323471, 3921009573, 961987163,
   1508970993, 2453635748, 2870763221, 3624381080, 310598401,
   607225278, 1426881987, 1925078388, 2162078206, 2614888103,
   3248222580, 3835390401, 4022224774, 264347078, 604807628,
   770255983, 1249150122, 1555081692, 1996064986, 2554220882,
   2821834349, 2952996808, 3210313671, 3336571891, 3584528711,
   113926993, 338241895, 666307205, 773529912, 1294757372,
   1396182291, 1695183700, 1986661051, 2177026350, 2456956037,
   2730485921, 2820302411, 3259730800, 3345764771, 3516065817,
   3600352804, 4094571909, 275423344, 430227734, 506948616,
   659060556, 883997877, 958139571, 1322822218, 1537002063,
   1747873779, 1955562222, 2024104815, 2227730452, 2361852424,
   2428436474, 2756734187, 3204031479, 3329325298]

structure SHA8 where
  a : Nat
  b : Nat
  c : Nat
  d : Nat
  e : Nat
  f : Nat
  g : Nat
  hh : Nat
  deriving Repr, DecidableEq

def sha256H0 : SHA8 :=
  ⟨1779033703, 3144134277, 1013904242, 2773480762,
   1359893119, 2600822924, 528734635, 1541459225⟩

/-- One round of the SHA-256 compression function. -/
def sha256Round (s : SHA8) (k w : Nat) : SHA8 :=
  let t1 := w32 (s.hh + bigSigma1 s.e + chWord s.e s.f s.g + k + w)
  let t2 := w32 (bigSigma0 s.a + majWord s.a s.b s.c)
  ⟨w32 (t1 + t2), s.a, s.b, s.c, w32 (s.d + t1), s.e, s.f, s.g⟩

/-- Group a byte list into big-endian 32-bit words. -/
def bytesToWords : List Nat → List Nat
  | b0 :: b1 :: b2 :: b3 :: rest =>
      (((b0 * 256 + b1) * 256 + b2) * 256 + b3) :: bytesToWords rest
  | _ => []

/-- Extend the 16 block words by one scheduled word. -/
def scheduleStep (ws : Array Nat) : Array Nat :=
  let i := ws.size
  ws.push (w32 (smallSigma1 (ws.getD (i - 2) 0) + ws.getD (i - 7) 0 +
                smallSigma0 (ws.getD (i - 15) 0) + ws.getD (i - 16) 0))

/-- The full 64-word message schedule of one block. -/
def sha256Schedule (block : List Nat) : Array Nat :=
  (List.range 48).foldl (fun a _ => scheduleStep a) (Array.mk (bytesToWords block))

/-- Process one 64-byte block. -/
def sha256Block (H : SHA8) (block : List Nat) : SHA8 :=
  let ws := sha256Schedule block
  let s := (List.range 64).foldl
    (fun s i => sha256Round s (sha256K.getD i 0) (ws.getD i 0)) H
  ⟨w32 (H.a + s.a), w32 (H.b + s.b), w32 (H.c + s.c), w32 (H.d + s.d),
   w32 (H.e + s.e), w32 (H.f + s.f), w32 (H.g + s.g), w32 (H.hh + s.hh)⟩

/-- `n`-byte big-endian encoding of `x`. -/
def toBytesBE (n x : Nat) : List Nat :=
  (List.range n).map (fun i => (x >>> (8 * (n - 1 - i))) % 256)

/-- SHA-256 padding: `0x80`, zeros, then the 64-bit bit length. -/
def sha256Pad (msg : List Nat) : List Nat :=
  let L := msg.length
  let k := (119 - L % 64) % 64
  msg ++ [0x80] ++ List.replicate k 0 ++ toBytesBE 8 (8 * L)

def sha256BlocksGo (H : SHA8) (l : List Nat) (fuel : Nat) : SHA8 :=
  match fuel with
  | 0 => H
  | fuel + 1 =>
    match l with
    | [] => H
    | _ :: _ => sha256BlocksGo (sha256Block H (l.take 64)) (l.drop 64) fuel

/-- The SHA-256 digest of a byte list, as 32 bytes. -/
def sha256Bytes (msg : List Nat) : List Nat :=
  let padded := sha256Pad msg
  let H := sha256BlocksGo sha256H0 padded padded.length
  toBytesBE 4 H.a ++ toBytesBE 4 H.b ++ toBytesBE 4 H.c ++ toBytesBE 4 H.d ++
  toBytesBE 4 H.e ++ toBytesBE 4 H.f ++ toBytesBE 4 H.g ++ toBytesBE 4 H.hh

def hexDigit (n : Nat) : Char :=
  if n < 10 then Char.ofNat (48 + n) else Char.ofNat (87 + n)

def byteToHex (b : Nat) : List Char := [hexDigit (b / 16), hexDigit (b % 16)]

/-- The bytes of a Python string under `str.encode()`; for the ASCII
inputs these services accept this is the list of code points. -/
def strBytes (s : String) : List Nat := s.data.map Char.toNat

/-- `hashlib.sha256(s.encode()).hexdigest()`. -/
def sha256hex (s : String) : String :=
  String.mk ((sha256Bytes (strBytes s)).flatMap byteToHex)

/-! ## Python string slicing helpers -/

/-- Python `s[-n:]`: the last `n` characters (all of `s` when shorter). -/
def pySliceLast (n : Nat) (s : String) : String :=
  String.mk (s.data.drop (s.data.length - n))

/-! ## HTTP responses

`get_or_404` and `abort` terminate the handler with an error response
and no store mutation; `fail` models that.  Successful JSON bodies of
the linking services are dictionaries of strings, modelled as
association lists in the order the source builds them. -/

inductive Resp (β : Type) where
  | ok (code : Nat) (body : β)
  | fail (code : Nat) (message : String)
  deriving Repr, DecidableEq

abbrev JsonBody := List (String × String)

/-! ## Aadhaar linking service (`aadhaar_app.py`)

`AadhaarRequestModel`: one row of `aadhaar_link_requests`.  Timestamps
are abstract clock values (`Nat`); handlers that mutate a row receive
the current clock `now`, mirroring the column's `onupdate` refresh. -/

structure AadhaarRequest where
  request_id : String
  aadhaar_hash : String
  masked_aadhaar : String
  status : String
  consent_obtained : Bool
  created_at : Nat
  updated_at : Nat
  deriving Repr, DecidableEq

def findAadhaar (db : List AadhaarRequest) (i : String) : Option AadhaarRequest :=
  db.find? (fun r => r.request_id == i)

def updateAadhaar (db : List AadhaarRequest) (i : String) (r' : AadhaarRequest) :
    List AadhaarRequest :=
  db.map (fun r => if r.request_id == i then r' else r)

/-- `AadhaarStartSchema`: 12-character `aadhaarNumber`, consent must be
`True`. -/
def aadhaarStartValid (aadhaarNumber : String) (consentObtained : Bool) : Bool :=
  aadhaarNumber.length == 12 && consentObtained

/-- `OtpVerifySchema` (identical in both linking services). -/
def otpValid (otp : String) : Bool := otp.length == 6

/-- The masked display form built at creation:
`"XXXX-XXXX-" + data['aadhaarNumber'][-4:]`. -/
def maskAadhaar (aadhaarNumber : String) : String :=
  "XXXX-XXXX-" ++ pySliceLast 4 aadhaarNumber

/-- `AadhaarStart.post`: schema validation, then insert a fresh row with
hash, mask, consent and default status `PENDING_OTP`. -/
def aadhaarStart (db : List AadhaarRequest) (requestId aadhaarNumber : String)
    (consentObtained : Bool) (now : Nat) : Resp JsonBody × List AadhaarRequest :=
  if aadhaarStartValid aadhaarNumber consentObtained then
    let newRequest : AadhaarRequest :=
      { request_id := requestId
        aadhaar_hash := sha256hex aadhaarNumber
        masked_aadhaar := maskAadhaar aadhaarNumber
        status := "PENDING_OTP"
        consent_obtained := consentObtained
        created_at := now
        updated_at := now }
    (.ok 201 [("requestId", requestId), ("status", newRequest.status),
              ("message", "Aadhaar linking initiated. Consent verified.")],
     db ++ [newRequest])
  else (.fail 422 "Unprocessable Entity", db)

/-- `AadhaarSendOtp.post`: unguarded transition to `OTP_SENT`. -/
def aadhaarSendOtp (db : List AadhaarRequest) (requestId : String) (now : Nat) :
    Resp JsonBody × List AadhaarRequest :=
  match findAadhaar db requestId with
  | none => (.fail 404 "Not Found", db)
  | some r =>
    let r' := { r with status := "OTP_SENT", updated_at := now }
    (.ok 200 [("requestId", requestId), ("status", r'.status),
              ("message", "OTP successfully triggered via UIDAI gateway")],
     updateAadhaar db requestId r')

/-- `AadhaarVerifyOtp.post`: schema-validated OTP, then an unguarded
transition to `OTP_VERIFIED`; the OTP value itself is never compared. -/
def aadhaarVerifyOtp (db : List AadhaarRequest) (requestId otp : String) (now : Nat) :
    Resp JsonBody × List AadhaarRequest :=
  if otpValid otp then
    match findAadhaar db requestId with
    | none => (.fail 404 "Not Found", db)
    | some r =>
      let r' := { r with status := "OTP_VERIFIED", updated_at := now }
      (.ok 200 [("requestId", requestId), ("status", r'.status),
                ("message", "UIDAI OTP validation successful")],
       updateAadhaar db requestId r')
  else (.fail 422 "Unprocessable Entity", db)

/-- `AadhaarFinalize.post`: guarded by `status == "OTP_VERIFIED"`. -/
def aadhaarFinalize (db : List AadhaarRequest) (requestId : String) (now : Nat) :
    Resp JsonBody × List AadhaarRequest :=
  match findAadhaar db requestId with
  | none => (.fail 404 "Not Found", db)
  | some r =>
    if r.status ≠ "OTP_VERIFIED" then
      (.fail 400 "Aadhaar OTP must be verified before final link.", db)
    else
      let r' := { r with status := "LINKED", updated_at := now }
      (.ok 200 [("requestId", requestId), ("status", r'.status),
                ("maskedAadhaar", r'.masked_aadhaar),
                ("message", "Aadhaar successfully linked to the primary account.")],
       updateAadhaar db requestId r')

/-- `AadhaarStatus.get`: read-only projection. -/
def aadhaarStatusGet (db : List AadhaarRequest) (requestId : String) :
    Resp JsonBody × List AadhaarRequest :=
  match findAadhaar db requestId with
  | none => (.fail 404 "Not Found", db)
  | some r =>
    (.ok 200 [("requestId", r.request_id), ("status", r.status),
              ("maskedAadhaar", r.masked_aadhaar),
              ("updatedAt", toString r.updated_at ++ "Z")], db)

/-- One client invocation against the Aadhaar service. -/
inductive AadhaarOp where
  | start (requestId aadhaarNumber : String) (consentObtained : Bool) (now : Nat)
  | sendOtp (requestId : String) (now : Nat)
  | verifyOtp (requestId otp : String) (now : Nat)
  | finalize (requestId : String) (now : Nat)
  | statusGet (requestId : String)
  deriving Repr, DecidableEq

def aadhaarApply (db : List AadhaarRequest) : AadhaarOp → Resp JsonBody × List AadhaarRequest
  | .start rid a c now => aadhaarStart db rid a c now
  | .sendOtp rid now => aadhaarSendOtp db rid now
  | .verifyOtp rid otp now => aadhaarVerifyOtp db rid otp now
  | .finalize rid now => aadhaarFinalize db rid now
  | .statusGet rid => aadhaarStatusGet db rid

def aadhaarStep (db : List AadhaarRequest) (op : AadhaarOp) : List AadhaarRequest :=
  (aadhaarApply db op).2

/-! ## PAN linking service (`pan_app.py`) -/

structure PanRequest where
  request_id : String
  pan_number : String
  customer_name : String
  status : String
  created_at : Nat
  updated_at : Nat
  deriving Repr, DecidableEq

def findPan (db : List PanRequest) (i : String) : Option PanRequest :=
  db.find? (fun r => r.request_id == i)

def updatePan (db : List PanRequest) (i : String) (r' : PanRequest) : List PanRequest :=
  db.map (fun r => if r.request_id == i then r' else r)

def isUpperAlpha (c : Char) : Bool := 65 ≤ c.toNat && c.toNat ≤ 90

def isAsciiDigit (c : Char) : Bool := 48 ≤ c.toNat && c.toNat ≤ 57

/-- `PanStartSchema`'s regexp `^[A-Z]{5}[0-9]{4}[A-Z]$`. -/
def panMatches (p : String) : Bool :=
  p.length == 10 &&
  (p.data.take 5).all isUpperAlpha &&
  ((p.data.drop 5).take 4).all isAsciiDigit &&
  (p.data.drop 9).all isUpperAlpha

/-- The masked display form the status endpoint computes:
`f"******{request.pan_number[-4:]}"`. -/
def maskPan (panNumber : String) : String := "******" ++ pySliceLast 4 panNumber

/-- `PanStart.post`: schema validation, then insert a fresh row storing
the raw PAN and default status `PENDING_OTP`. -/
def panStart (db : List PanRequest) (requestId panNumber customerName : String)
    (now : Nat) : Resp JsonBody × List PanRequest :=
  if panMatches panNumber then
    let newRequest : PanRequest :=
      { request_id := requestId
        pan_number := panNumber
        customer_name := customerName
        status := "PENDING_OTP"
        created_at := now
        updated_at := now }
    (.ok 201 [("requestId", requestId), ("status", newRequest.status),
              ("message", "Linking request initiated. Please send OTP.")],
     db ++ [newRequest])
  else (.fail 422 "Unprocessable Entity", db)

/-- `PanSendOtp.post`: unguarded transition to `OTP_SENT`. -/
def panSendOtp (db : List PanRequest) (requestId : String) (now : Nat) :
    Resp JsonBody × List PanRequest :=
  match findPan db requestId with
  | none => (.fail 404 "Not Found", db)
  | some r =>
    let r' := { r with status := "OTP_SENT", updated_at := now }
    (.ok 200 [("requestId", requestId), ("status", r'.status),
              ("message", "OTP has been sent to registered mobile number")],
     updatePan db requestId r')

/-- `PanVerifyOtp.post`: schema-validated OTP, then an unguarded
transition to `OTP_VERIFIED`; the OTP value itself is never compared. -/
def panVerifyOtp (db : List PanRequest) (requestId otp : String) (now : Nat) :
    Resp JsonBody × List PanRequest :=
  if otpValid otp then
    match findPan db requestId with
    | none => (.fail 404 "Not Found", db)
    | some r =>
      let r' := { r with status := "OTP_VERIFIED", updated_at := now }
      (.ok 200 [("requestId", requestId), ("status", r'.status),
                ("message", "OTP verified successfully")],
       updatePan db requestId r')
  else (.fail 422 "Unprocessable Entity", db)

/-- `PanFinalize.post`: guarded by `status == "OTP_VERIFIED"`.  Note the
success body carries no masked PAN. -/
def panFinalize (db : List PanRequest) (requestId : String) (now : Nat) :
    Resp JsonBody × List PanRequest :=
  match findPan db requestId with
  | none => (.fail 404 "Not Found", db)
  | some r =>
    if r.status ≠ "OTP_VERIFIED" then
      (.fail 400 "OTP must be verified before finalizing link.", db)
    else
      let r' := { r with status := "LINKED", updated_at := now }
      (.ok 200 [("requestId", requestId), ("status", r'.status),
                ("message", "PAN has been successfully linked to the account")],
       updatePan db requestId r')

/-- `PanStatus.get`: read-only projection with inline privacy masking. -/
def panStatusGet (db : List PanRequest) (requestId : String) :
    Resp JsonBody × List PanRequest :=
  match findPan db requestId with
  | none => (.fail 404 "Not Found", db)
  | some r =>
    (.ok 200 [("requestId", r.request_id), ("status", r.status),
              ("pan_number", maskPan r.pan_number),
              ("updatedAt", toString r.updated_at ++ "Z")], db)

/-- One client invocation against the PAN service. -/
inductive PanOp where
  | start (requestId panNumber customerName : String) (now : Nat)
  | sendOtp (requestId : String) (now : Nat)
  | verifyOtp (requestId otp : String) (now : Nat)
  | finalize (requestId : String) (now : Nat)
  | statusGet (requestId : String)
  deriving Repr, DecidableEq

def panApply (db : List PanRequest) : PanOp → Resp JsonBody × List PanRequest
  | .start rid p n now => panStart db rid p n now
  | .sendOtp rid now => panSendOtp db rid now
  | .verifyOtp rid otp now => panVerifyOtp db rid otp now
  | .finalize rid now => panFinalize db rid now
  | .statusGet rid => panStatusGet db rid

def panStep (db : List PanRequest) (op : PanOp) : List PanRequest :=
  (panApply db op).2

/-! ## KYC onboarding service (`app.py`) -/

structure SessionRec where
  id : String
  kyc_purpose : String
  jurisdiction : String
  status : String
  created_at : Nat
  deriving Repr, DecidableEq

structure DocumentRec where
  id : String
  session_id : String
  document_type : String
  side : String
  country : String
  state : String
  uploaded_at : Nat
  deriving Repr, DecidableEq

structure KycState where
  sessions : List SessionRec
  documents : List DocumentRec
  deriving Repr, DecidableEq

def kycInit : KycState := ⟨[], []⟩

def findSession (st : KycState) (i : String) : Option SessionRec :=
  st.sessions.find? (fun s => s.id == i)

/-- The `documents` relationship of a session row. -/
def sessionDocs (st : KycState) (i : String) : List DocumentRec :=
  st.documents.filter (fun d => d.session_id == i)

/-- `SessionSchema`: `jurisdiction` restricted to `['IN']` (`kycPurpose`
and the `customer` dict are required but unconstrained). -/
def sessionValid (jurisdiction : String) : Bool := jurisdiction == "IN"

/-- `KycDocSchema`. -/
def docValid (documentType side : String) : Bool :=
  (documentType == "PAN" || documentType == "AADHAAR" ||
   documentType == "PASSPORT" || documentType == "VOTER_ID") &&
  (side == "FRONT" || side == "BACK")

/-- `Sessions.post`: insert a session with default status `CREATED`. -/
def sessionsPost (st : KycState) (sessionId kycPurpose jurisdiction : String)
    (now : Nat) : Resp JsonBody × KycState :=
  if sessionValid jurisdiction then
    let newSession : SessionRec :=
      { id := sessionId, kyc_purpose := kycPurpose, jurisdiction := jurisdiction
        status := "CREATED", created_at := now }
    (.ok 201 [("sessionId", newSession.id), ("status", newSession.status)],
     { st with sessions := st.sessions ++ [newSession] })
  else (.fail 422 "Unprocessable Entity", st)

/-- `Docs.post`: schema validation, parent-session existence check, then
insert a document with default state `UPLOADED`. -/
def docsPost (st : KycState) (sessionId docId documentType side country : String)
    (now : Nat) : Resp JsonBody × KycState :=
  if docValid documentType side then
    match findSession st sessionId with
    | none => (.fail 404 "Not Found", st)
    | some _ =>
      let newDoc : DocumentRec :=
        { id := docId, session_id := sessionId, document_type := documentType
          side := side, country := country, state := "UPLOADED", uploaded_at := now }
      (.ok 201 [("documentId", newDoc.id), ("status", newDoc.state)],
       { st with documents := st.documents ++ [newDoc] })
  else (.fail 422 "Unprocessable Entity", st)

structure DocProj where
  id : String
  type : String
  status : String
  deriving Repr, DecidableEq

structure SummaryBody where
  sessionId : String
  status : String
  documentCount : Nat
  documents : List DocProj
  deriving Repr, DecidableEq

/-- `Summary.get`: read-only aggregation over the session's documents. -/
def summaryGet (st : KycState) (sessionId : String) : Resp SummaryBody × KycState :=
  match findSession st sessionId with
  | none => (.fail 404 "Not Found", st)
  | some s =>
    let docs := (sessionDocs st sessionId).map
      (fun d => DocProj.mk d.id d.document_type d.state)
    (.ok 200 ⟨sessionId, s.status, docs.length, docs⟩, st)

/-- One client invocation against the KYC service. -/
inductive KycOp where
  | createSession (sessionId kycPurpose jurisdiction : String) (now : Nat)
  | addDocument (sessionId docId documentType side country : String) (now : Nat)
  | summary (sessionId : String)
  deriving Repr, DecidableEq

def kycStep (st : KycState) : KycOp → KycState
  | .createSession sid p j now => (sessionsPost st sid p j now).2
  | .addDocument sid did t sd c now => (docsPost st sid did t sd c now).2
  | .summary sid => (summaryGet st sid).2

def kycRun (ops : List KycOp) : KycState := ops.foldl kycStep kycInit

/-! ## The status order of the linking lifecycle -/

def statusRank (s : String) : Nat :=
  if s = "PENDING_OTP" then 0
  else if s = "OTP_SENT" then 1
  else if s = "OTP_VERIFIED" then 2
  else if s = "LINKED" then 3
  else 4

def Resp.isSuccess {β : Type} : Resp β → Bool
  | .ok _ _ => true
  | .fail _ _ => false

/-- The documented KYC state invariant: session status and document
state are never transitioned after creation. -/
def kycInv (st : KycState) : Prop :=
  (∀ s ∈ st.sessions, s.status = "CREATED") ∧
  (∀ d ∈ st.documents, d.state = "UPLOADED")

/-! ## Concrete sample data (used by counterexamples and witnesses) -/

/-- The spec's happy-path scenario: start, send OTP, verify, finalize. -/
def aadhaarDemoOps : List AadhaarOp :=
  [.start "ADR_00000001" "123456789012" true 0,
   .sendOtp "ADR_00000001" 1,
   .verifyOtp "ADR_00000001" "000000" 2,
   .finalize "ADR_00000001" 3]

def aadhaarDemoDb : List AadhaarRequest := aadhaarDemoOps.foldl aadhaarStep []

def aadhaarVerifiedReq : AadhaarRequest :=
  { request_id := "ADR_00000001"
    aadhaar_hash := "2a33349e7e606a8ad2e30e3c84521f9377450cf09083e162e0a9b1480ce0f972"
    masked_aadhaar := "XXXX-XXXX-9012"
    status := "OTP_VERIFIED"
    consent_obtained := true
    created_at := 0
    updated_at := 2 }

def panVerifiedReq : PanRequest :=
  { request_id := "PAN_00000001"
    pan_number := "ABCDE1234F"
    customer_name := "Jane Doe"
    status := "OTP_VERIFIED"
    created_at := 0
    updated_at := 2 }

def kycDemoSession : SessionRec :=
  { id := "sess_00000001", kyc_purpose := "ACCOUNT_OPENING", jurisdiction := "IN"
    status := "CREATED", created_at := 0 }

def kycDemoOps : List KycOp :=
  [.createSession "sess_00000001" "ACCOUNT_OPENING" "IN" 0]

/-! ## Store lemmas

Both linking services mutate a row by primary-key lookup followed by an
in-place field assignment; `updateAadhaar`/`updatePan` render that as a
keyed map.  The lemmas below describe `find?` after such an update. -/

theorem find?_cons_pos {α : Type} (p : α → Bool) (a : α) (l : List α)
    (h : p a = true) : (a :: l).find? p = some a :=
  List.find?_cons_of_pos l h

theorem find?_cons_neg {α : Type} (p : α → Bool) (a : α) (l : List α)
    (h : ¬ p a = true) : (a :: l).find? p = l.find? p :=
  List.find?_cons_of_neg l h

theorem find?_map_update_self {α : Type} (key : α → String) (db : List α)
    (i : String) (r r' : α) (h : db.find? (fun x => key x == i) = some r)
    (h' : key r' = i) :
    (db.map (fun x => if key x == i then r' else x)).find?
      (fun x => key x == i) = some r' := by
  induction db with
  | nil => simp at h
  | cons x xs ih =>
    rw [List.map_cons]
    by_cases hx : (key x == i) = true
    · rw [if_pos hx]
      exact find?_cons_pos _ r' _ (by simp [h'])
    · rw [if_neg hx]
      have h2 : xs.find? (fun x => key x == i) = some r :=
        (find?_cons_neg _ x xs hx).symm.trans h
      exact (find?_cons_neg _ x _ hx).trans (ih h2)

theorem find?_map_update_other {α : Type} (key : α → String) (db : List α)
    (i id : String) (r' : α) (h' : key r' = i) (hne : id ≠ i) :
    (db.map (fun x => if key x == i then r' else x)).find?
      (fun x => key x == id) = db.find? (fun x => key x == id) := by
  induction db with
  | nil => rfl
  | cons x xs ih =>
    rw [List.map_cons]
    by_cases hx : (key x == i) = true
    · have hx' : key x = i := by simpa using hx
      have hxid : ¬((key x == id) = true) := by
        simp only [beq_iff_eq, hx']
        exact fun h => hne h.symm
      have hrid : ¬((key r' == id) = true) := by
        simp only [beq_iff_eq, h']
        exact fun h => hne h.symm
      rw [if_pos hx]
      exact (find?_cons_neg _ r' _ hrid).trans
        (ih.trans (find?_cons_neg _ x xs hxid).symm)
    · rw [if_neg hx]
      by_cases hxid : (key x == id) = true
      · exact (find?_cons_pos _ x _ hxid).trans (find?_cons_pos _ x xs hxid).symm
      · exact (find?_cons_neg _ x _ hxid).trans
          (ih.trans (find?_cons_neg _ x xs hxid).symm)

theorem find?_append_left {α : Type} (p : α → Bool) (l l' : List α) (r : α)
    (h : l.find? p = some r) : (l ++ l').find? p = some r := by
  rw [List.find?_append, h]; rfl

theorem findAadhaar_request_id {db : List AadhaarRequest} {i : String}
    {r : AadhaarRequest} (h : findAadhaar db i = some r) : r.request_id = i := by
  simpa using List.find?_some h

theorem findPan_request_id {db : List PanRequest} {i : String}
    {r : PanRequest} (h : findPan db i = some r) : r.request_id = i := by
  simpa using List.find?_some h

theorem findAadhaar_update_found_self {db : List AadhaarRequest} {i : String}
    {r₀ : AadhaarRequest} (s : String) (n : Nat)
    (hf : findAadhaar db i = some r₀) :
    findAadhaar (updateAadhaar db i { r₀ with status := s, updated_at := n }) i =
      some { r₀ with status := s, updated_at := n } :=
  by
  have h2 := findAadhaar_request_id hf
  exact find?_map_update_self (fun x : AadhaarRequest => x.request_id) db i r₀ _ hf h2

theorem findAadhaar_update_found_other {db : List AadhaarRequest} {i id : String}
    {r₀ : AadhaarRequest} (s : String) (n : Nat)
    (hf : findAadhaar db i = some r₀) (hne : id ≠ i) :
    findAadhaar (updateAadhaar db i { r₀ with status := s, updated_at := n }) id =
      findAadhaar db id :=
  by
  have h2 := findAadhaar_request_id hf
  exact find?_map_update_other (fun x : AadhaarRequest => x.request_id) db i id _ h2 hne

theorem findPan_update_found_self {db : List PanRequest} {i : String}
    {r₀ : PanRequest} (s : String) (n : Nat)
    (hf : findPan db i = some r₀) :
    findPan (updatePan db i { r₀ with status := s, updated_at := n }) i =
      some { r₀ with status := s, updated_at := n } :=
  by
  have h2 := findPan_request_id hf
  exact find?_map_update_self (fun x : PanRequest => x.request_id) db i r₀ _ hf h2

theorem findPan_update_found_other {db : List PanRequest} {i id : String}
    {r₀ : PanRequest} (s : String) (n : Nat)
    (hf : findPan db i = some r₀) (hne : id ≠ i) :
    findPan (updatePan db i { r₀ with status := s, updated_at := n }) id =
      findPan db id :=
  by
  have h2 := findPan_request_id hf
  exact find?_map_update_other (fun x : PanRequest => x.request_id) db i id _ h2 hne

theorem aadhaarStatusGet_state (db : List AadhaarRequest) (rid : String) :
    (aadhaarStatusGet db rid).2 = db := by
  unfold aadhaarStatusGet
  cases findAadhaar db rid <;> rfl

theorem panStatusGet_state (db : List PanRequest) (rid : String) :
    (panStatusGet db rid).2 = db := by
  unfold panStatusGet
  cases findPan db rid <;> rfl

/-- Characterisation of any Aadhaar handler invocation, as seen by one
stored row: the row survives every operation with all fields other than
`status`/`updated_at` intact, and the only way its status becomes
`LINKED` anew is the guarded `finalize` from `OTP_VERIFIED`. -/
theorem aadhaarStep_find (db : List AadhaarRequest) (op : AadhaarOp) (id : String)
    (r : AadhaarRequest) (h : findAadhaar db id = some r) :
    ∃ s' n', findAadhaar (aadhaarStep db op) id =
        some { r with status := s', updated_at := n' } ∧
      ((s' = r.status ∧ n' = r.updated_at) ∨ s' = "OTP_SENT" ∨ s' = "OTP_VERIFIED" ∨
       (s' = "LINKED" ∧ r.status = "OTP_VERIFIED")) := by
  cases op with
  | start rid a c now =>
    by_cases hv : aadhaarStartValid a c = true
    · refine ⟨r.status, r.updated_at, ?_, Or.inl ⟨rfl, rfl⟩⟩
      simp only [aadhaarStep, aadhaarApply, aadhaarStart, if_pos hv]
      exact find?_append_left _ db _ r h
    · refine ⟨r.status, r.updated_at, ?_, Or.inl ⟨rfl, rfl⟩⟩
      simp only [aadhaarStep, aadhaarApply, aadhaarStart, if_neg hv]
      exact h
  | sendOtp rid now =>
    rcases hf : findAadhaar db rid with _ | r₀
    · refine ⟨r.status, r.updated_at, ?_, Or.inl ⟨rfl, rfl⟩⟩
      simp only [aadhaarStep, aadhaarApply, aadhaarSendOtp, hf]
      exact h
    · by_cases hid : id = rid
      · subst hid
        have hr : r₀ = r := by rw [h] at hf; exact (Option.some_inj.mp hf).symm
        subst hr
        refine ⟨"OTP_SENT", now, ?_, Or.inr (Or.inl rfl)⟩
        simp only [aadhaarStep, aadhaarApply, aadhaarSendOtp, hf]
        exact findAadhaar_update_found_self _ _ hf
      · refine ⟨r.status, r.updated_at, ?_, Or.inl ⟨rfl, rfl⟩⟩
        simp only [aadhaarStep, aadhaarApply, aadhaarSendOtp, hf]
        rw [findAadhaar_update_found_other _ _ hf hid]
        exact h
  | verifyOtp rid otp now =>
    by_cases hv : otpValid otp = true
    · rcases hf : findAadhaar db rid with _ | r₀
      · refine ⟨r.status, r.updated_at, ?_, Or.inl ⟨rfl, rfl⟩⟩
        simp only [aadhaarStep, aadhaarApply, aadhaarVerifyOtp, if_pos hv, hf]
        exact h
      · by_cases hid : id = rid
        · subst hid
          have hr : r₀ = r := by rw [h] at hf; exact (Option.some_inj.mp hf).symm
          subst hr
          refine ⟨"OTP_VERIFIED", now, ?_, Or.inr (Or.inr (Or.inl rfl))⟩
          simp only [aadhaarStep, aadhaarApply, aadhaarVerifyOtp, if_pos hv, hf]
          exact findAadhaar_update_found_self _ _ hf
        · refine ⟨r.status, r.updated_at, ?_, Or.inl ⟨rfl, rfl⟩⟩
          simp only [aadhaarStep, aadhaarApply, aadhaarVerifyOtp, if_pos hv, hf]
          rw [findAadhaar_update_found_other _ _ hf hid]
          exact h
    · refine ⟨r.status, r.updated_at, ?_, Or.inl ⟨rfl, rfl⟩⟩
      simp only [aadhaarStep, aadhaarApply, aadhaarVerifyOtp, if_neg hv]
      exact h
  | finalize rid now =>
    rcases hf : findAadhaar db rid with _ | r₀
    · refine ⟨r.status, r.updated_at, ?_, Or.inl ⟨rfl, rfl⟩⟩
      simp only [aadhaarStep, aadhaarApply, aadhaarFinalize, hf]
      exact h
    · by_cases hst : r₀.status = "OTP_VERIFIED"
      · by_cases hid : id = rid
        · subst hid
          have hr : r₀ = r := by rw [h] at hf; exact (Option.some_inj.mp hf).symm
          subst hr
          refine ⟨"LINKED", now, ?_, Or.inr (Or.inr (Or.inr ⟨rfl, hst⟩))⟩
          simp only [aadhaarStep, aadhaarApply, aadhaarFinalize, hf,
            if_neg (not_not_intro hst)]
          exact findAadhaar_update_found_self _ _ hf
        · refine ⟨r.status, r.updated_at, ?_, Or.inl ⟨rfl, rfl⟩⟩
          simp only [aadhaarStep, aadhaarApply, aadhaarFinalize, hf,
            if_neg (not_not_intro hst)]
          rw [findAadhaar_update_found_other _ _ hf hid]
          exact h
      · refine ⟨r.status, r.updated_at, ?_, Or.inl ⟨rfl, rfl⟩⟩
        simp only [aadhaarStep, aadhaarApply, aadhaarFinalize, hf, if_pos hst]
        exact h
  | statusGet rid =>
    refine ⟨r.status, r.updated_at, ?_, Or.inl ⟨rfl, rfl⟩⟩
    show findAadhaar (aadhaarStatusGet db rid).2 id = _
    rw [aadhaarStatusGet_state]
    exact h

/-- PAN analogue of `aadhaarStep_find`. -/
theorem panStep_find (db : List PanRequest) (op : PanOp) (id : String)
    (r : PanRequest) (h : findPan db id = some r) :
    ∃ s' n', findPan (panStep db op) id =
        some { r with status := s', updated_at := n' } ∧
      ((s' = r.status ∧ n' = r.updated_at) ∨ s' = "OTP_SENT" ∨ s' = "OTP_VERIFIED" ∨
       (s' = "LINKED" ∧ r.status = "OTP_VERIFIED")) := by
  cases op with
  | start rid p name now =>
    by_cases hv : panMatches p = true
    · refine ⟨r.status, r.updated_at, ?_, Or.inl ⟨rfl, rfl⟩⟩
      simp only [panStep, panApply, panStart, if_pos hv]
      exact find?_append_left _ db _ r h
    · refine ⟨r.status, r.updated_at, ?_, Or.inl ⟨rfl, rfl⟩⟩
      simp only [panStep, panApply, panStart, if_neg hv]
      exact h
  | sendOtp rid now =>
    rcases hf : findPan db rid with _ | r₀
    · refine ⟨r.status, r.updated_at, ?_, Or.inl ⟨rfl, rfl⟩⟩
      simp only [panStep, panApply, panSendOtp, hf]
      exact h
    · by_cases hid : id = rid
      · subst hid
        have hr : r₀ = r := by rw [h] at hf; exact (Option.some_inj.mp hf).symm
        subst hr
        refine ⟨"OTP_SENT", now, ?_, Or.inr (Or.inl rfl)⟩
        simp only [panStep, panApply, panSendOtp, hf]
        exact findPan_update_found_self _ _ hf
      · refine ⟨r.status, r.updated_at, ?_, Or.inl ⟨rfl, rfl⟩⟩
        simp only [panStep, panApply, panSendOtp, hf]
        rw [findPan_update_found_other _ _ hf hid]
        exact h
  | verifyOtp rid otp now =>
    by_cases hv : otpValid otp = true
    · rcases hf : findPan db rid with _ | r₀
      · refine ⟨r.status, r.updated_at, ?_, Or.inl ⟨rfl, rfl⟩⟩
        simp only [panStep, panApply, panVerifyOtp, if_pos hv, hf]
        exact h
      · by_cases hid : id = rid
        · subst hid
          have hr : r₀ = r := by rw [h] at hf; exact (Option.some_inj.mp hf).symm
          subst hr
          refine ⟨"OTP_VERIFIED", now, ?_, Or.inr (Or.inr (Or.inl rfl))⟩
          simp only [panStep, panApply, panVerifyOtp, if_pos hv, hf]
          exact findPan_update_found_self _ _ hf
        · refine ⟨r.status, r.updated_at, ?_, Or.inl ⟨rfl, rfl⟩⟩
          simp only [panStep, panApply, panVerifyOtp, if_pos hv, hf]
          rw [findPan_update_found_other _ _ hf hid]
          exact h
    · refine ⟨r.status, r.updated_at, ?_, Or.inl ⟨rfl, rfl⟩⟩
      simp only [panStep, panApply, panVerifyOtp, if_neg hv]
      exact h
  | finalize rid now =>
    rcases hf : findPan db rid with _ | r₀
    · refine ⟨r.status, r.updated_at, ?_, Or.inl ⟨rfl, rfl⟩⟩
      simp only [panStep, panApply, panFinalize, hf]
      exact h
    · by_cases hst : r₀.status = "OTP_VERIFIED"
      · by_cases hid : id = rid
        · subst hid
          have hr : r₀ = r := by rw [h] at hf; exact (Option.some_inj.mp hf).symm
          subst hr
          refine ⟨"LINKED", now, ?_, Or.inr (Or.inr (Or.inr ⟨rfl, hst⟩))⟩
          simp only [panStep, panApply, panFinalize, hf, if_neg (not_not_intro hst)]
          exact findPan_update_found_self _ _ hf
        · refine ⟨r.status, r.updated_at, ?_, Or.inl ⟨rfl, rfl⟩⟩
          simp only [panStep, panApply, panFinalize, hf, if_neg (not_not_intro hst)]
          rw [findPan_update_found_other _ _ hf hid]
          exact h
      · refine ⟨r.status, r.updated_at, ?_, Or.inl ⟨rfl, rfl⟩⟩
        simp only [panStep, panApply, panFinalize, hf, if_pos hst]
        exact h
  | statusGet rid =>
    refine ⟨r.status, r.updated_at, ?_, Or.inl ⟨rfl, rfl⟩⟩
    show findPan (panStatusGet db rid).2 id = _
    rw [panStatusGet_state]
    exact h

end Banking

namespace Banking

/-! ## Claim theorems -/

/-- C1: For every stored link request (PAN and Aadhaar variants), `finalize`
succeeds if and only if the record's current status is exactly
`OTP_VERIFIED`; from any other status it fails with HTTP 400 and leaves
the store (hence the stored status and all other fields) unchanged, and
on success it sets the status to `LINKED`. -/
theorem finalize_requires_otp_verified :
    (∀ (db : List AadhaarRequest) (rid : String) (now : Nat) (r : AadhaarRequest),
      findAadhaar db rid = some r →
        ((aadhaarFinalize db rid now).1.isSuccess = true ↔
          r.status = "OTP_VERIFIED") ∧
        (r.status ≠ "OTP_VERIFIED" →
          aadhaarFinalize db rid now =
            (.fail 400 "Aadhaar OTP must be verified before final link.", db)) ∧
        (r.status = "OTP_VERIFIED" →
          (aadhaarFinalize db rid now).1 =
            .ok 200 [("requestId", rid), ("status", "LINKED"),
                     ("maskedAadhaar", r.masked_aadhaar),
                     ("message", "Aadhaar successfully linked to the primary account.")] ∧
          findAadhaar (aadhaarFinalize db rid now).2 rid =
            some { r with status := "LINKED", updated_at := now })) ∧
    (∀ (db : List PanRequest) (rid : String) (now : Nat) (r : PanRequest),
      findPan db rid = some r →
        ((panFinalize db rid now).1.isSuccess = true ↔
          r.status = "OTP_VERIFIED") ∧
        (r.status ≠ "OTP_VERIFIED" →
          panFinalize db rid now =
            (.fail 400 "OTP must be verified before finalizing link.", db)) ∧
        (r.status = "OTP_VERIFIED" →
          (panFinalize db rid now).1 =
            .ok 200 [("requestId", rid), ("status", "LINKED"),
                     ("message", "PAN has been successfully linked to the account")] ∧
          findPan (panFinalize db rid now).2 rid =
            some { r with status := "LINKED", updated_at := now })) := by
  constructor
  · intro db rid now r h
    by_cases hst : r.status = "OTP_VERIFIED"
    · refine ⟨?_, fun hne => absurd hst hne, fun _ => ⟨?_, ?_⟩⟩
      · simp [aadhaarFinalize, h, hst, Resp.isSuccess]
      · simp [aadhaarFinalize, h, hst]
      · simp only [aadhaarFinalize, h, if_neg (not_not_intro hst)]
        exact findAadhaar_update_found_self "LINKED" now h
    · refine ⟨?_, fun _ => ?_, fun he => absurd he hst⟩
      · simp [aadhaarFinalize, h, hst, Resp.isSuccess]
      · simp [aadhaarFinalize, h, hst]
  · intro db rid now r h
    by_cases hst : r.status = "OTP_VERIFIED"
    · refine ⟨?_, fun hne => absurd hst hne, fun _ => ⟨?_, ?_⟩⟩
      · simp [panFinalize, h, hst, Resp.isSuccess]
      · simp [panFinalize, h, hst]
      · simp only [panFinalize, h, if_neg (not_not_intro hst)]
        exact findPan_update_found_self "LINKED" now h
    · refine ⟨?_, fun _ => ?_, fun he => absurd he hst⟩
      · simp [panFinalize, h, hst, Resp.isSuccess]
      · simp [panFinalize, h, hst]

/-- Witness for C1 at a concrete `OTP_VERIFIED` row in each service. -/
theorem finalize_requires_otp_verified_witness :
    findAadhaar [aadhaarVerifiedReq] "ADR_00000001" = some aadhaarVerifiedReq ∧
    findPan [panVerifiedReq] "PAN_00000001" = some panVerifiedReq ∧
    ((aadhaarFinalize [aadhaarVerifiedReq] "ADR_00000001" 3).1.isSuccess = true ↔
      aadhaarVerifiedReq.status = "OTP_VERIFIED") ∧
    ((panFinalize [panVerifiedReq] "PAN_00000001" 3).1.isSuccess = true ↔
      panVerifiedReq.status = "OTP_VERIFIED") :=
  ⟨by decide, by decide,
   (finalize_requires_otp_verified.1 [aadhaarVerifiedReq] "ADR_00000001" 3
      aadhaarVerifiedReq (by decide)).1,
   (finalize_requires_otp_verified.2 [panVerifiedReq] "PAN_00000001" 3
      panVerifiedReq (by decide)).1⟩

/-- C4: For every existing link request and every schema-valid (6-character)
OTP string, `verify-otp` unconditionally sets the status to `OTP_VERIFIED`,
whatever the current status and whatever the OTP value: no comparison with
an issued OTP occurs in either service. -/
theorem verify_otp_unconditional :
    (∀ (db : List AadhaarRequest) (rid otp : String) (now : Nat) (r : AadhaarRequest),
      otpValid otp = true → findAadhaar db rid = some r →
        (aadhaarVerifyOtp db rid otp now).1 =
          .ok 200 [("requestId", rid), ("status", "OTP_VERIFIED"),
                   ("message", "UIDAI OTP validation successful")] ∧
        findAadhaar (aadhaarVerifyOtp db rid otp now).2 rid =
          some { r with status := "OTP_VERIFIED", updated_at := now }) ∧
    (∀ (db : List PanRequest) (rid otp : String) (now : Nat) (r : PanRequest),
      otpValid otp = true → findPan db rid = some r →
        (panVerifyOtp db rid otp now).1 =
          .ok 200 [("requestId", rid), ("status", "OTP_VERIFIED"),
                   ("message", "OTP verified successfully")] ∧
        findPan (panVerifyOtp db rid otp now).2 rid =
          some { r with status := "OTP_VERIFIED", updated_at := now }) := by
  constructor
  · intro db rid otp now r hv h
    constructor
    · simp [aadhaarVerifyOtp, hv, h]
    · simp only [aadhaarVerifyOtp, if_pos hv, h]
      exact findAadhaar_update_found_self "OTP_VERIFIED" now h
  · intro db rid otp now r hv h
    constructor
    · simp [panVerifyOtp, hv, h]
    · simp only [panVerifyOtp, if_pos hv, h]
      exact findPan_update_found_self "OTP_VERIFIED" now h

/-- Witness for C4: verifying with an arbitrary OTP from `OTP_VERIFIED`
rows (a status from which no OTP was ever issued). -/
theorem verify_otp_unconditional_witness :
    otpValid "000000" = true ∧
    findAadhaar [aadhaarVerifiedReq] "ADR_00000001" = some aadhaarVerifiedReq ∧
    findPan [panVerifiedReq] "PAN_00000001" = some panVerifiedReq ∧
    (aadhaarVerifyOtp [aadhaarVerifiedReq] "ADR_00000001" "000000" 9).1 =
      .ok 200 [("requestId", "ADR_00000001"), ("status", "OTP_VERIFIED"),
               ("message", "UIDAI OTP validation successful")] ∧
    (panVerifyOtp [panVerifiedReq] "PAN_00000001" "000000" 9).1 =
      .ok 200 [("requestId", "PAN_00000001"), ("status", "OTP_VERIFIED"),
               ("message", "OTP verified successfully")] :=
  ⟨by decide, by decide, by decide,
   (verify_otp_unconditional.1 [aadhaarVerifiedReq] "ADR_00000001" "000000" 9
      aadhaarVerifiedReq (by decide) (by decide)).1,
   (verify_otp_unconditional.2 [panVerifiedReq] "PAN_00000001" "000000" 9
      panVerifiedReq (by decide) (by decide)).1⟩

end Banking

namespace Banking

/-- C7: Every endpoint that takes a record identifier (send-otp,
verify-otp, finalize, status retrieval, KYC document creation and
summary), invoked with a schema-valid body and an identifier not in the
store, returns 404 and leaves the store exactly as it was. -/
theorem unknown_id_yields_404 :
    (∀ (db : List AadhaarRequest) (rid : String) (now : Nat),
      findAadhaar db rid = none →
        aadhaarSendOtp db rid now = (.fail 404 "Not Found", db)) ∧
    (∀ (db : List AadhaarRequest) (rid otp : String) (now : Nat),
      otpValid otp = true → findAadhaar db rid = none →
        aadhaarVerifyOtp db rid otp now = (.fail 404 "Not Found", db)) ∧
    (∀ (db : List AadhaarRequest) (rid : String) (now : Nat),
      findAadhaar db rid = none →
        aadhaarFinalize db rid now = (.fail 404 "Not Found", db)) ∧
    (∀ (db : List AadhaarRequest) (rid : String),
      findAadhaar db rid = none →
        aadhaarStatusGet db rid = (.fail 404 "Not Found", db)) ∧
    (∀ (db : List PanRequest) (rid : String) (now : Nat),
      findPan db rid = none →
        panSendOtp db rid now = (.fail 404 "Not Found", db)) ∧
    (∀ (db : List PanRequest) (rid otp : String) (now : Nat),
      otpValid otp = true → findPan db rid = none →
        panVerifyOtp db rid otp now = (.fail 404 "Not Found", db)) ∧
    (∀ (db : List PanRequest) (rid : String) (now : Nat),
      findPan db rid = none →
        panFinalize db rid now = (.fail 404 "Not Found", db)) ∧
    (∀ (db : List PanRequest) (rid : String),
      findPan db rid = none →
        panStatusGet db rid = (.fail 404 "Not Found", db)) ∧
    (∀ (st : KycState) (sid did t sd c : String) (now : Nat),
      docValid t sd = true → findSession st sid = none →
        docsPost st sid did t sd c now = (.fail 404 "Not Found", st)) ∧
    (∀ (st : KycState) (sid : String),
      findSession st sid = none →
        summaryGet st sid = (.fail 404 "Not Found", st)) := by
  refine ⟨?_, ?_, ?_, ?_, ?_, ?_, ?_, ?_, ?_, ?_⟩
  · intro db rid now h; simp [aadhaarSendOtp, h]
  · intro db rid otp now hv h; simp [aadhaarVerifyOtp, hv, h]
  · intro db rid now h; simp [aadhaarFinalize, h]
  · intro db rid h; simp [aadhaarStatusGet, h]
  · intro db rid now h; simp [panSendOtp, h]
  · intro db rid otp now hv h; simp [panVerifyOtp, hv, h]
  · intro db rid now h; simp [panFinalize, h]
  · intro db rid h; simp [panStatusGet, h]
  · intro st sid did t sd c now hv h; simp [docsPost, hv, h]
  · intro st sid h; simp [summaryGet, h]

/-- Witness for C7: a missing identifier against every endpoint, on
empty stores, with schema-valid bodies. -/
theorem unknown_id_yields_404_witness :
    findAadhaar [] "ADR_MISSING" = none ∧
    findPan [] "PAN_MISSING" = none ∧
    findSession kycInit "sess_MISSING" = none ∧
    otpValid "000000" = true ∧
    docValid "PAN" "FRONT" = true ∧
    aadhaarSendOtp [] "ADR_MISSING" 1 = (.fail 404 "Not Found", []) ∧
    aadhaarVerifyOtp [] "ADR_MISSING" "000000" 1 = (.fail 404 "Not Found", []) ∧
    aadhaarFinalize [] "ADR_MISSING" 1 = (.fail 404 "Not Found", []) ∧
    aadhaarStatusGet [] "ADR_MISSING" = (.fail 404 "Not Found", []) ∧
    panSendOtp [] "PAN_MISSING" 1 = (.fail 404 "Not Found", []) ∧
    panVerifyOtp [] "PAN_MISSING" "000000" 1 = (.fail 404 "Not Found", []) ∧
    panFinalize [] "PAN_MISSING" 1 = (.fail 404 "Not Found", []) ∧
    panStatusGet [] "PAN_MISSING" = (.fail 404 "Not Found", []) ∧
    docsPost kycInit "sess_MISSING" "doc_00000001" "PAN" "FRONT" "IN" 1 =
      (.fail 404 "Not Found", kycInit) ∧
    summaryGet kycInit "sess_MISSING" = (.fail 404 "Not Found", kycInit) :=
  ⟨rfl, rfl, rfl, by decide, by decide,
   unknown_id_yields_404.1 [] "ADR_MISSING" 1 rfl,
   unknown_id_yields_404.2.1 [] "ADR_MISSING" "000000" 1 (by decide) rfl,
   unknown_id_yields_404.2.2.1 [] "ADR_MISSING" 1 rfl,
   unknown_id_yields_404.2.2.2.1 [] "ADR_MISSING" rfl,
   unknown_id_yields_404.2.2.2.2.1 [] "PAN_MISSING" 1 rfl,
   unknown_id_yields_404.2.2.2.2.2.1 [] "PAN_MISSING" "000000" 1 (by decide) rfl,
   unknown_id_yields_404.2.2.2.2.2.2.1 [] "PAN_MISSING" 1 rfl,
   unknown_id_yields_404.2.2.2.2.2.2.2.1 [] "PAN_MISSING" rfl,
   unknown_id_yields_404.2.2.2.2.2.2.2.2.1 kycInit "sess_MISSING" "doc_00000001"
     "PAN" "FRONT" "IN" 1 (by decide) rfl,
   unknown_id_yields_404.2.2.2.2.2.2.2.2.2 kycInit "sess_MISSING" rfl⟩

/-- C8: Adding a document to a nonexistent KYC session returns 404 and
leaves the document table unchanged. -/
theorem missing_session_adds_no_document :
    ∀ (st : KycState) (sid did t sd c : String) (now : Nat),
      docValid t sd = true → findSession st sid = none →
        docsPost st sid did t sd c now = (.fail 404 "Not Found", st) ∧
        (docsPost st sid did t sd c now).2.documents = st.documents := by
  intro st sid did t sd c now hv h
  constructor <;> simp [docsPost, hv, h]

/-- Witness for C8: a store that does contain a session, queried with a
different session id. -/
theorem missing_session_adds_no_document_witness :
    docValid "AADHAAR" "BACK" = true ∧
    findSession ⟨[kycDemoSession], []⟩ "sess_MISSING" = none ∧
    docsPost ⟨[kycDemoSession], []⟩ "sess_MISSING" "doc_00000001" "AADHAAR"
        "BACK" "IN" 7 = (.fail 404 "Not Found", ⟨[kycDemoSession], []⟩) :=
  ⟨by decide, by decide,
   (missing_session_adds_no_document ⟨[kycDemoSession], []⟩ "sess_MISSING"
     "doc_00000001" "AADHAAR" "BACK" "IN" 7 (by decide) (by decide)).1⟩

end Banking

namespace Banking

/-- C3 counterexample: the claim "status only moves forward along
PENDING_OTP → OTP_SENT → OTP_VERIFIED → LINKED" is false.  Running the
spec's own happy-path scenario yields a `LINKED` record, and one further
(unguarded) `send-otp` call moves it backward to `OTP_SENT`. -/
theorem status_moves_backward_counterexample :
    (findAadhaar aadhaarDemoDb "ADR_00000001").map AadhaarRequest.status =
      some "LINKED" ∧
    (findAadhaar (aadhaarStep aadhaarDemoDb (.sendOtp "ADR_00000001" 4))
        "ADR_00000001").map AadhaarRequest.status = some "OTP_SENT" ∧
    statusRank "OTP_SENT" < statusRank "LINKED" := by
  decide

/-- C3 amended: statuses do not move only forward (`send-otp` and
`verify-otp` are unconditional and can move a record backward), but the
second half of the claim holds: `LINKED` is never reached except from
`OTP_VERIFIED`, in either service. -/
theorem linked_only_from_otp_verified :
    (∀ (db : List AadhaarRequest) (op : AadhaarOp) (id : String)
       (r r' : AadhaarRequest),
      findAadhaar db id = some r → findAadhaar (aadhaarStep db op) id = some r' →
        r'.status = "LINKED" → r.status ≠ "LINKED" →
          r.status = "OTP_VERIFIED") ∧
    (∀ (db : List PanRequest) (op : PanOp) (id : String) (r r' : PanRequest),
      findPan db id = some r → findPan (panStep db op) id = some r' →
        r'.status = "LINKED" → r.status ≠ "LINKED" →
          r.status = "OTP_VERIFIED") := by
  constructor
  · intro db op id r r' h h' hL hne
    obtain ⟨s', n', hfind, hcases⟩ := aadhaarStep_find db op id r h
    rw [h'] at hfind
    have hr' : r' = { r with status := s', updated_at := n' } :=
      Option.some_inj.mp hfind
    have hs : s' = "LINKED" := by rw [hr'] at hL; exact hL
    rcases hcases with ⟨h1, _⟩ | h1 | h1 | ⟨_, h2⟩
    · exact absurd (h1 ▸ hs.symm).symm hne
    · rw [h1] at hs; exact absurd hs (by decide)
    · rw [h1] at hs; exact absurd hs (by decide)
    · exact h2
  · intro db op id r r' h h' hL hne
    obtain ⟨s', n', hfind, hcases⟩ := panStep_find db op id r h
    rw [h'] at hfind
    have hr' : r' = { r with status := s', updated_at := n' } :=
      Option.some_inj.mp hfind
    have hs : s' = "LINKED" := by rw [hr'] at hL; exact hL
    rcases hcases with ⟨h1, _⟩ | h1 | h1 | ⟨_, h2⟩
    · exact absurd (h1 ▸ hs.symm).symm hne
    · rw [h1] at hs; exact absurd hs (by decide)
    · rw [h1] at hs; exact absurd hs (by decide)
    · exact h2
end Banking

namespace Banking

/-- Witness for the amended C3: a guarded finalize from `OTP_VERIFIED`. -/
theorem linked_only_from_otp_verified_witness :
    findAadhaar [aadhaarVerifiedReq] "ADR_00000001" = some aadhaarVerifiedReq ∧
    findAadhaar (aadhaarStep [aadhaarVerifiedReq] (.finalize "ADR_00000001" 3))
        "ADR_00000001" =
      some { aadhaarVerifiedReq with status := "LINKED", updated_at := 3 } ∧
    aadhaarVerifiedReq.status = "OTP_VERIFIED" :=
  ⟨by decide, by decide,
   linked_only_from_otp_verified.1 [aadhaarVerifiedReq]
     (.finalize "ADR_00000001" 3) "ADR_00000001" aadhaarVerifiedReq
     { aadhaarVerifiedReq with status := "LINKED", updated_at := 3 }
     (by decide) (by decide) (by decide) (by decide)⟩

/-- C9: For every stored link request, the identifier, the sensitive
value (Aadhaar hash / PAN number), the masked value, the consent flag /
customer name and the creation timestamp are fixed at creation: every
handler invocation leaves them intact (only `status` and `updated_at`
can change), and the status-retrieval endpoints mutate nothing at all. -/
theorem operations_preserve_identity_fields :
    (∀ (db : List AadhaarRequest) (op : AadhaarOp) (id : String)
       (r : AadhaarRequest),
      findAadhaar db id = some r →
        ∃ r', findAadhaar (aadhaarStep db op) id = some r' ∧
          r'.request_id = r.request_id ∧ r'.aadhaar_hash = r.aadhaar_hash ∧
          r'.masked_aadhaar = r.masked_aadhaar ∧
          r'.consent_obtained = r.consent_obtained ∧
          r'.created_at = r.created_at) ∧
    (∀ (db : List PanRequest) (op : PanOp) (id : String) (r : PanRequest),
      findPan db id = some r →
        ∃ r', findPan (panStep db op) id = some r' ∧
          r'.request_id = r.request_id ∧ r'.pan_number = r.pan_number ∧
          r'.customer_name = r.customer_name ∧ r'.created_at = r.created_at) ∧
    (∀ (db : List AadhaarRequest) (rid : String),
      (aadhaarStatusGet db rid).2 = db) ∧
    (∀ (db : List PanRequest) (rid : String), (panStatusGet db rid).2 = db) := by
  refine ⟨?_, ?_, aadhaarStatusGet_state, panStatusGet_state⟩
  · intro db op id r h
    obtain ⟨s', n', hfind, _⟩ := aadhaarStep_find db op id r h
    exact ⟨_, hfind, rfl, rfl, rfl, rfl, rfl⟩
  · intro db op id r h
    obtain ⟨s', n', hfind, _⟩ := panStep_find db op id r h
    exact ⟨_, hfind, rfl, rfl, rfl, rfl⟩

/-- Witness for C9: an unguarded `send-otp` on a concrete row. -/
theorem operations_preserve_identity_fields_witness :
    findAadhaar [aadhaarVerifiedReq] "ADR_00000001" = some aadhaarVerifiedReq ∧
    (∃ r', findAadhaar
        (aadhaarStep [aadhaarVerifiedReq] (.sendOtp "ADR_00000001" 5))
        "ADR_00000001" = some r' ∧
      r'.request_id = aadhaarVerifiedReq.request_id ∧
      r'.aadhaar_hash = aadhaarVerifiedReq.aadhaar_hash ∧
      r'.masked_aadhaar = aadhaarVerifiedReq.masked_aadhaar ∧
      r'.consent_obtained = aadhaarVerifiedReq.consent_obtained ∧
      r'.created_at = aadhaarVerifiedReq.created_at) :=
  ⟨by decide, operations_preserve_identity_fields.1 [aadhaarVerifiedReq]
     (.sendOtp "ADR_00000001" 5) "ADR_00000001" aadhaarVerifiedReq (by decide)⟩

end Banking

namespace Banking

/-- C5 counterexample: the claim that a successful finalize response in
every domain carries the masked value is false for the PAN service — a
successful PAN finalize returns 200 with only `requestId`, `status` and
`message`; no field of its body holds the masked PAN. -/
theorem pan_finalize_body_lacks_masked_value :
    (panFinalize [panVerifiedReq] "PAN_00000001" 3).1 =
      .ok 200 [("requestId", "PAN_00000001"), ("status", "LINKED"),
               ("message", "PAN has been successfully linked to the account")] ∧
    maskPan panVerifiedReq.pan_number = "******234F" ∧
    (∀ kv ∈ [("requestId", "PAN_00000001"), ("status", "LINKED"),
             ("message", "PAN has been successfully linked to the account")],
      Prod.snd kv ≠ "******234F") := by
  decide

/-- C5 amended: a successful finalize returns HTTP 200 with `requestId`,
`status` and a message in both domains; the Aadhaar body additionally
carries the masked Aadhaar, but the PAN body contains no masked value. -/
theorem finalize_success_bodies :
    (∀ (db : List AadhaarRequest) (rid : String) (now : Nat)
       (r : AadhaarRequest),
      findAadhaar db rid = some r → r.status = "OTP_VERIFIED" →
        (aadhaarFinalize db rid now).1 =
          .ok 200 [("requestId", rid), ("status", "LINKED"),
                   ("maskedAadhaar", r.masked_aadhaar),
                   ("message", "Aadhaar successfully linked to the primary account.")]) ∧
    (∀ (db : List PanRequest) (rid : String) (now : Nat) (r : PanRequest),
      findPan db rid = some r → r.status = "OTP_VERIFIED" →
        (panFinalize db rid now).1 =
          .ok 200 [("requestId", rid), ("status", "LINKED"),
                   ("message", "PAN has been successfully linked to the account")]) := by
  constructor
  · intro db rid now r h hst
    simp [aadhaarFinalize, h, hst]
  · intro db rid now r h hst
    simp [panFinalize, h, hst]

/-- Witness for the amended C5 at concrete `OTP_VERIFIED` rows. -/
theorem finalize_success_bodies_witness :
    findAadhaar [aadhaarVerifiedReq] "ADR_00000001" = some aadhaarVerifiedReq ∧
    findPan [panVerifiedReq] "PAN_00000001" = some panVerifiedReq ∧
    (aadhaarFinalize [aadhaarVerifiedReq] "ADR_00000001" 3).1 =
      .ok 200 [("requestId", "ADR_00000001"), ("status", "LINKED"),
               ("maskedAadhaar", aadhaarVerifiedReq.masked_aadhaar),
               ("message", "Aadhaar successfully linked to the primary account.")] ∧
    (panFinalize [panVerifiedReq] "PAN_00000001" 3).1 =
      .ok 200 [("requestId", "PAN_00000001"), ("status", "LINKED"),
               ("message", "PAN has been successfully linked to the account")] :=
  ⟨by decide, by decide,
   finalize_success_bodies.1 [aadhaarVerifiedReq] "ADR_00000001" 3
     aadhaarVerifiedReq (by decide) (by decide),
   finalize_success_bodies.2 [panVerifiedReq] "PAN_00000001" 3
     panVerifiedReq (by decide) (by decide)⟩

end Banking

namespace Banking

/-- C2: For every valid (12-digit) Aadhaar input, creation stores the mask
`"XXXX-XXXX-" + last 4 characters` and the SHA-256 hex digest of the
input, inserts exactly one row, and both derivations depend only on the
input (any two runs, over any stores, ids and clocks, store the same mask
and the same hash; the embedding is pure, so the input is not mutated). -/
theorem aadhaar_create_masks_and_hashes :
    ∀ (a : String), a.length = 12 → (∀ c ∈ a.data, isAsciiDigit c = true) →
    ∀ (db : List AadhaarRequest) (rid : String) (now : Nat),
      aadhaarStart db rid a true now =
        (.ok 201 [("requestId", rid), ("status", "PENDING_OTP"),
                  ("message", "Aadhaar linking initiated. Consent verified.")],
         db ++ [{ request_id := rid, aadhaar_hash := sha256hex a,
                  masked_aadhaar := maskAadhaar a, status := "PENDING_OTP",
                  consent_obtained := true, created_at := now,
                  updated_at := now }]) ∧
      (maskAadhaar a).data = "XXXX-XXXX-".data ++ a.data.drop 8 ∧
      (∀ (db₂ : List AadhaarRequest) (rid₂ : String) (now₂ : Nat),
        ((aadhaarStart db rid a true now).2.getLast?).map
            AadhaarRequest.masked_aadhaar =
          ((aadhaarStart db₂ rid₂ a true now₂).2.getLast?).map
            AadhaarRequest.masked_aadhaar ∧
        ((aadhaarStart db rid a true now).2.getLast?).map
            AadhaarRequest.aadhaar_hash =
          ((aadhaarStart db₂ rid₂ a true now₂).2.getLast?).map
            AadhaarRequest.aadhaar_hash) := by
  intro a ha _ db rid now
  have hv : aadhaarStartValid a true = true := by simp [aadhaarStartValid, ha]
  refine ⟨?_, ?_, ?_⟩
  · simp only [aadhaarStart, if_pos hv]
  · have hd : a.data.length = 12 := ha
    simp [maskAadhaar, pySliceLast, String.data_append, hd]
  · intro db₂ rid₂ now₂
    simp only [aadhaarStart, if_pos hv]
    constructor <;> simp [List.getLast?_concat]

/-- Witness for C2 at the spec's sample Aadhaar number. -/
theorem aadhaar_create_masks_and_hashes_witness :
    ("123456789012" : String).length = 12 ∧
    (∀ c ∈ ("123456789012" : String).data, isAsciiDigit c = true) ∧
    aadhaarStart [] "ADR_00000001" "123456789012" true 0 =
      (.ok 201 [("requestId", "ADR_00000001"), ("status", "PENDING_OTP"),
                ("message", "Aadhaar linking initiated. Consent verified.")],
       [] ++ [{ request_id := "ADR_00000001",
                aadhaar_hash := sha256hex "123456789012",
                masked_aadhaar := maskAadhaar "123456789012",
                status := "PENDING_OTP", consent_obtained := true,
                created_at := 0, updated_at := 0 }]) :=
  ⟨by decide, by decide,
   (aadhaar_create_masks_and_hashes "123456789012" (by decide) (by decide)
     [] "ADR_00000001" 0).1⟩

end Banking

namespace Banking

/-- C6: For every PAN input matching `[A-Z]{5}[0-9]{4}[A-Z]`, the masked
value the status endpoint exposes is `"******"` followed by the last 4
characters of the PAN (character-wise: the six `*`s then the characters
from index 6 of the 10-character PAN). -/
theorem pan_mask_exposes_last_four :
    ∀ (p : String), panMatches p = true →
    ∀ (db : List PanRequest) (rid name : String) (now : Nat),
      findPan db rid = none →
        (panStatusGet (panStart db rid p name now).2 rid).1 =
          .ok 200 [("requestId", rid), ("status", "PENDING_OTP"),
                   ("pan_number", "******" ++ pySliceLast 4 p),
                   ("updatedAt", toString now ++ "Z")] ∧
        ("******" ++ pySliceLast 4 p).data = "******".data ++ p.data.drop 6 := by
  intro p hp db rid name now hnone
  constructor
  · have hfind : findPan (panStart db rid p name now).2 rid =
        some { request_id := rid, pan_number := p, customer_name := name,
               status := "PENDING_OTP", created_at := now,
               updated_at := now } := by
      simp only [panStart, if_pos hp]
      unfold findPan at hnone ⊢
      rw [List.find?_append, hnone]
      simp
    simp [panStatusGet, hfind, maskPan]
  · have hlen : p.data.length = 10 := by
      simp only [panMatches, Bool.and_eq_true, beq_iff_eq] at hp
      exact hp.1.1.1
    simp [pySliceLast, String.data_append, hlen]

/-- Witness for C6 at a concrete well-formed PAN. -/
theorem pan_mask_exposes_last_four_witness :
    panMatches "ABCDE1234F" = true ∧
    findPan [] "PAN_00000001" = none ∧
    (panStatusGet (panStart [] "PAN_00000001" "ABCDE1234F" "Jane Doe" 0).2
        "PAN_00000001").1 =
      .ok 200 [("requestId", "PAN_00000001"), ("status", "PENDING_OTP"),
               ("pan_number", "******" ++ pySliceLast 4 "ABCDE1234F"),
               ("updatedAt", toString 0 ++ "Z")] :=
  ⟨by decide, rfl,
   (pan_mask_exposes_last_four "ABCDE1234F" (by decide) [] "PAN_00000001"
     "Jane Doe" 0 rfl).1⟩

end Banking

namespace Banking

theorem summaryGet_state (st : KycState) (sid : String) :
    (summaryGet st sid).2 = st := by
  unfold summaryGet
  cases findSession st sid <;> rfl

/-- Every KYC handler invocation preserves the never-transitioned
statuses: sessions stay `CREATED`, documents stay `UPLOADED`. -/
theorem kycInv_step (st : KycState) (op : KycOp) (h : kycInv st) :
    kycInv (kycStep st op) := by
  obtain ⟨hs, hd⟩ := h
  cases op with
  | createSession sid p j now =>
    by_cases hv : sessionValid j = true
    · constructor
      · intro s hmem
        simp only [kycStep, sessionsPost, if_pos hv, List.mem_append] at hmem
        rcases hmem with h1 | h1
        · exact hs s h1
        · simp only [List.mem_singleton] at h1
          subst h1
          rfl
      · intro d hmem
        simp only [kycStep, sessionsPost, if_pos hv] at hmem
        exact hd d hmem
    · simp only [kycStep, sessionsPost, if_neg hv]
      exact ⟨hs, hd⟩
  | addDocument sid did t sd c now =>
    by_cases hv : docValid t sd = true
    · rcases hf : findSession st sid with _ | s₀
      · simp only [kycStep, docsPost, if_pos hv, hf]
        exact ⟨hs, hd⟩
      · constructor
        · intro s hmem
          simp only [kycStep, docsPost, if_pos hv, hf] at hmem
          exact hs s hmem
        · intro d hmem
          simp only [kycStep, docsPost, if_pos hv, hf, List.mem_append] at hmem
          rcases hmem with h1 | h1
          · exact hd d h1
          · simp only [List.mem_singleton] at h1
            subst h1
            rfl
    · simp only [kycStep, docsPost, if_neg hv]
      exact ⟨hs, hd⟩
  | summary sid =>
    simp only [kycStep, summaryGet_state]
    exact ⟨hs, hd⟩

theorem kycInv_foldl : ∀ (ops : List KycOp) (st : KycState),
    kycInv st → kycInv (ops.foldl kycStep st)
  | [], _, h => h
  | op :: ops, st, h => kycInv_foldl ops (kycStep st op) (kycInv_step st op h)

/-- C10: After any sequence of KYC operations from the empty store, every
session's status is still `CREATED` and every document's state is still
`UPLOADED` (no operation transitions either), so the summary endpoint
always reports a `CREATED` session whose document projections are all
`UPLOADED`. -/
theorem kyc_status_constant :
    ∀ ops : List KycOp,
      (∀ s ∈ (kycRun ops).sessions, s.status = "CREATED") ∧
      (∀ d ∈ (kycRun ops).documents, d.state = "UPLOADED") ∧
      (∀ (sid : String) (s : SessionRec),
        findSession (kycRun ops) sid = some s →
          ∃ b, (summaryGet (kycRun ops) sid).1 = .ok 200 b ∧
            b.status = "CREATED" ∧ ∀ dp ∈ b.documents, dp.status = "UPLOADED") := by
  intro ops
  have hinv : kycInv (kycRun ops) :=
    kycInv_foldl ops kycInit ⟨by simp [kycInit], by simp [kycInit]⟩
  refine ⟨hinv.1, hinv.2, ?_⟩
  intro sid s hf
  refine ⟨⟨sid, s.status,
      ((sessionDocs (kycRun ops) sid).map
        (fun d => DocProj.mk d.id d.document_type d.state)).length,
      (sessionDocs (kycRun ops) sid).map
        (fun d => DocProj.mk d.id d.document_type d.state)⟩, ?_, ?_, ?_⟩
  · simp only [summaryGet, hf]
  · exact hinv.1 s (List.mem_of_find?_eq_some hf)
  · intro dp hdp
    rcases List.mem_map.mp hdp with ⟨d, hdmem, rfl⟩
    exact hinv.2 d (List.mem_of_mem_filter hdmem)

/-- Witness for C10: one created session, queried through the summary. -/
theorem kyc_status_constant_witness :
    findSession (kycRun kycDemoOps) "sess_00000001" = some kycDemoSession ∧
    (∃ b, (summaryGet (kycRun kycDemoOps) "sess_00000001").1 = .ok 200 b ∧
      b.status = "CREATED" ∧ ∀ dp ∈ b.documents, dp.status = "UPLOADED") :=
  ⟨by decide,
   (kyc_status_constant kycDemoOps).2.2 "sess_00000001" kycDemoSession
     (by decide)⟩

end Banking
